import Mathlib

/-!
Verification of the ArcaneForge client-side core: the rate limiter
(`services/rateLimit.ts`), the list cache and item-store client
(`services/storageService.ts`), the thumbnail handling of `saveItem`, and
the request sequencing of the generation orchestrator (`App.tsx`,
`handleGenerate`).

Modelling conventions, stated once:
* JavaScript numbers used as millisecond timestamps are modelled as `Int`
  (`Date.now()` returns an integer number of milliseconds).
* `localStorage` is modelled as reliable explicit state: the quota-exception
  retry branches of the source are exception handlers that never run when the
  storage layer does not throw, and no claim below depends on them.  The
  4 MiB size guard of `setCachedItems` is kept, driven by a `cacheSizeOk`
  environment flag.
* The remote store is modelled as a list of rows plus a pure interpretation
  of the shaped query (projection, descending order on `created_at`, limit).
  Remote-error branches (which degrade to `[]`) are not modelled; no claim
  below is about them.
* The SSR guard of the rate limiter (`typeof window === 'undefined'`), which
  returns `allowed` without touching storage, is outside the browser
  execution the claims are about; the embedding models the browser path.
-/

namespace ArcaneForge

/-! ## Rate limiter (`services/rateLimit.ts`) -/

/-- The record returned by `checkClientRateLimit`:
`{ allowed: boolean; retryAfterSeconds?: number }`. -/
structure RateLimitResult where
  allowed : Bool
  retryAfterSeconds : Option Int
deriving DecidableEq, Repr

/-- Source: `export const MAX_GENERATIONS_PER_MINUTE = 5`. -/
def MAX_GENERATIONS_PER_MINUTE : Nat := 5

/-- Source: `const windowMs = 60 * 1000`. -/
def windowMs : Int := 60 * 1000

/-- Exact integer rendering of `Math.ceil(x / 1000)`: Euclidean division by
the positive constant 1000 floors, so adding 999 to the numerator yields the
ceiling, for every integer `x`. -/
def ceilDiv1000 (x : Int) : Int := (x + 999) / 1000

/-- What one call to `checkClientRateLimit` produces: the returned record and
the timestamp list passed to `localStorage.setItem`, when the call writes. -/
structure RateLimitOutcome where
  result : RateLimitResult
  written : Option (List Int)
deriving DecidableEq, Repr

/-- Source: `parsed.filter((ts) => now - ts < windowMs)`. -/
def recentTimestamps (parsed : List Int) (now : Int) : List Int :=
  parsed.filter fun ts => decide (now - ts < windowMs)

/-- The body of `checkClientRateLimit` after a successful read that parsed to
the number list `parsed` (a missing key parses to `[]`):
filter to the trailing window, deny with
`retryAfterSeconds = Math.max(1, Math.ceil((windowMs - (now - recent[0])) / 1000))`
when the window already holds `MAX_GENERATIONS_PER_MINUTE` entries, otherwise
push `now` and persist. -/
def checkClientRateLimitOn (parsed : List Int) (now : Int) : RateLimitOutcome :=
  let recent := recentTimestamps parsed now
  if MAX_GENERATIONS_PER_MINUTE ≤ recent.length then
    let oldest := recent.headD 0
    let retryAfterMs := windowMs - (now - oldest)
    { result := { allowed := false
                , retryAfterSeconds := some (max 1 (ceilDiv1000 retryAfterMs)) }
    , written := none }
  else
    { result := { allowed := true, retryAfterSeconds := none }
    , written := some (recent ++ [now]) }

/-- How the persisted rate-limit state presents itself to one call:
the read throws, the raw string is not valid JSON (`JSON.parse` throws),
the key is absent (`getItem` returned `null`), or a parsed number list. -/
inductive StorageRead where
  | throws
  | malformed
  | absent
  | value (parsed : List Int)
deriving DecidableEq, Repr

/-- The function `checkClientRateLimit` over the possible reads: the `catch` arm answers
`{ allowed: true }` for a throwing read or unparsable JSON, an absent key
parses to the empty list, and a parsed list runs the windowed check. -/
def checkClientRateLimit (read : StorageRead) (now : Int) : RateLimitOutcome :=
  match read with
  | .throws =>
      { result := { allowed := true, retryAfterSeconds := none }, written := none }
  | .malformed =>
      { result := { allowed := true, retryAfterSeconds := none }, written := none }
  | .absent => checkClientRateLimitOn [] now
  | .value parsed => checkClientRateLimitOn parsed now

/-- The entry the denial branch reads as `recent[0]`: the first persisted
entry inside the trailing window.  For a chronologically ordered list this is
the oldest in-window timestamp. -/
def oldestInWindow (parsed : List Int) (now : Int) : Int :=
  (recentTimestamps parsed now).headD 0

/-- One limiter call as a state transition: the stored list is replaced by
the written list when the call writes, and kept otherwise. -/
def rateLimitStep (stored : List Int) (now : Int) : Bool × List Int :=
  let o := checkClientRateLimitOn stored now
  (o.result.allowed, o.written.getD stored)

/-- A sequence of limiter calls at the given times, starting from a stored
list, returning the `allowed` answer of each call in order. -/
def runRateLimit (stored : List Int) : List Int → List Bool
  | [] => []
  | now :: rest =>
      let s := rateLimitStep stored now
      s.fst :: runRateLimit s.snd rest

/-! ## Data model (`types.ts`, `services/storageService.ts`) -/

/-- The structured item facts consulted by `searchSavedItems`
(`itemData.name`, `.type`, `.rarity`, `.theme`, `.description`); each access
uses optional chaining, so every field may be absent.  The remaining
`ItemData` fields are never inspected by the storage layer and are elided. -/
structure ItemData where
  name : Option String
  type : Option String
  rarity : Option String
  theme : Option String
  description : Option String
deriving DecidableEq, Repr

/-- Type `MagicItemResult`: generated content plus the optional image
(`imageUrl`), as passed to `saveItem`. -/
structure MagicItemResult where
  itemData : ItemData
  imagePrompt : String
  itemCard : String
  imageUrl : Option String
deriving DecidableEq, Repr

/-- Type `SavedMagicItem = MagicItemResult & { id, created_at }`; the source also
materialises `savedAt = new Date(created_at).getTime()`.  The ISO
`created_at` string is modelled by its millisecond value, so
`savedAt = created_at` for rows coming back from the store. -/
structure SavedMagicItem where
  itemData : ItemData
  imagePrompt : String
  itemCard : String
  imageUrl : Option String
  id : String
  created_at : Int
  savedAt : Int
deriving DecidableEq, Repr

/-- A row of the `magic_items` table as the remote store holds it. -/
structure ItemRow where
  id : String
  created_at : Int
  item_data : ItemData
  image_prompt : String
  item_card : String
  image_url : Option String
  thumbnail_url : Option String
deriving DecidableEq, Repr

/-- The lightweight projection `setCachedItems` serialises under
`CACHE_KEY_ITEMS`: `{ id, created_at, savedAt, itemData, imageUrl }`
(thumbnail kept, `imagePrompt` and `itemCard` dropped). -/
structure CachedItem where
  id : String
  created_at : Int
  savedAt : Int
  itemData : ItemData
  imageUrl : Option String
deriving DecidableEq, Repr

/-- The two persisted cache keys, `CACHE_KEY_ITEMS` (parsed) and
`CACHE_KEY_TIMESTAMP`; `none` models an absent key. -/
structure LocalState where
  cacheItems : Option (List CachedItem)
  cacheTimestamp : Option Int
deriving DecidableEq, Repr

/-- Per-call environment: whether `isSupabaseConfigured()` holds, and whether
the serialized cache passes the 4 MiB size guard of `setCachedItems`. -/
structure Env where
  configured : Bool
  cacheSizeOk : Bool
deriving DecidableEq, Repr

/-- The shape of one remote listing/search request: the column projection
passed to `.select(...)`, the `.order('created_at', { ascending: false })`
flag, and the `.limit(...)` value. -/
structure StoreQuery where
  fields : List String
  descending : Bool
  limit : Option Nat
deriving DecidableEq, Repr

/-- Source: `const CACHE_DURATION = 5 * 60 * 1000`. -/
def CACHE_DURATION : Int := 5 * 60 * 1000

/-- Source: `const queryLimit = limit || 100`: a missing — or zero, hence falsy —
limit becomes the reduced default of 100. -/
def jsOrDefault100 (limit : Option Nat) : Nat :=
  match limit with
  | none => 100
  | some n => if n = 0 then 100 else n

/-- The query `fetchItemsFromDatabase` shapes:
`.select('id, created_at, item_data, thumbnail_url')` — `image_url`
deliberately removed — ordered by `created_at` descending, limited to
`limit || 100`. -/
def fetchItemsQuery (limit : Option Nat) : StoreQuery :=
  { fields := ["id", "created_at", "item_data", "thumbnail_url"]
  , descending := true
  , limit := some (jsOrDefault100 limit) }

/-- The query of the no-cache branch of `searchSavedItems`:
`.select('id, created_at, item_data, thumbnail_url')` ordered descending,
`.limit(100)`. -/
def searchDbQuery : StoreQuery :=
  { fields := ["id", "created_at", "item_data", "thumbnail_url"]
  , descending := true
  , limit := some 100 }

/-- Insert a row into a descending-by-`created_at` list, keeping order. -/
def insertRowDesc (r : ItemRow) : List ItemRow → List ItemRow
  | [] => [r]
  | x :: xs => if r.created_at ≤ x.created_at then x :: insertRowDesc r xs
               else r :: x :: xs

/-- Model of the remote `ORDER BY created_at DESC`. -/
def sortRowsDesc : List ItemRow → List ItemRow
  | [] => []
  | x :: xs => insertRowDesc x (sortRowsDesc xs)

/-- The rows the remote store answers a shaped query with: the table sorted
descending when requested, truncated to the limit. -/
def runListQuery (db : List ItemRow) (q : StoreQuery) : List ItemRow :=
  let sorted := if q.descending then sortRowsDesc db else db
  match q.limit with
  | some n => sorted.take n
  | none => sorted

/-- How `fetchItemsFromDatabase` rebuilds a `SavedMagicItem` from a projected
row: empty prompt and card, `imageUrl` holding only the thumbnail. -/
def rowToSavedItem (r : ItemRow) : SavedMagicItem :=
  { itemData := r.item_data
  , imagePrompt := ""
  , itemCard := ""
  , imageUrl := r.thumbnail_url
  , id := r.id
  , created_at := r.created_at
  , savedAt := r.created_at }

/-- The lightweight projection `setCachedItems` writes. -/
def toCachedItem (it : SavedMagicItem) : CachedItem :=
  { id := it.id
  , created_at := it.created_at
  , savedAt := it.savedAt
  , itemData := it.itemData
  , imageUrl := it.imageUrl }

/-- How `getCachedItems` restores a `SavedMagicItem` from a cached entry:
`imagePrompt` and `itemCard` come back empty (fetched on demand), the cached
thumbnail is kept. -/
def restoreCachedItem (c : CachedItem) : SavedMagicItem :=
  { itemData := c.itemData
  , imagePrompt := ""
  , itemCard := ""
  , imageUrl := c.imageUrl
  , id := c.id
  , created_at := c.created_at
  , savedAt := c.savedAt }

/-- The function `setCachedItems`: serialize the lightweight projection and write both
keys, unless the payload would exceed the 4 MiB bound, in which case the
write is skipped and the previous state kept.  (The quota-exception retry
path is an exception handler that cannot run under the reliable-storage
model.) -/
def setCachedItems (env : Env) (items : List SavedMagicItem) (st : LocalState)
    (now : Int) : LocalState :=
  if env.cacheSizeOk then
    { cacheItems := some (items.map toCachedItem), cacheTimestamp := some now }
  else st

/-- The function `invalidateCache`: remove both cache keys; never throws. -/
def invalidateCache (_st : LocalState) : LocalState :=
  { cacheItems := none, cacheTimestamp := none }

/-- The function `getCachedItems`: absent if either key is missing; if the entry is older
than `CACHE_DURATION` both keys are removed and the value is absent;
otherwise the restored items are returned and the state kept. -/
def getCachedItems (st : LocalState) (now : Int) :
    Option (List SavedMagicItem) × LocalState :=
  match st.cacheItems, st.cacheTimestamp with
  | some items, some ts =>
      if CACHE_DURATION < now - ts then
        (none, { cacheItems := none, cacheTimestamp := none })
      else
        (some (items.map restoreCachedItem), st)
  | _, _ => (none, st)

/-- What one call to a listing/search operation produces: the returned
items, the store queries awaited before returning, the store queries issued
fire-and-forget (background refresh), and the local storage state at
return. -/
structure ListReadOutcome where
  items : List SavedMagicItem
  queriesIssued : List StoreQuery
  backgroundQueries : List StoreQuery
  state : LocalState
deriving DecidableEq, Repr

/-- The function `fetchItemsFromDatabase`: shape the projected query, map the rows, cache
the result. -/
def fetchItemsFromDatabase (env : Env) (db : List ItemRow) (st : LocalState)
    (now : Int) (limit : Option Nat) : ListReadOutcome :=
  let q := fetchItemsQuery limit
  let items := (runListQuery db q).map rowToSavedItem
  { items := items
  , queriesIssued := [q]
  , backgroundQueries := []
  , state := setCachedItems env items st now }

/-- Source: `limit ? cached.slice(0, limit) : cached`: a missing — or zero, hence
falsy — limit returns the whole cached list. -/
def jsSliceLimit (l : List SavedMagicItem) (limit : Option Nat) :
    List SavedMagicItem :=
  match limit with
  | none => l
  | some n => if n = 0 then l else l.take n

/-- The function `getSavedItems`: empty when unconfigured; on a cache hit return the
cached items (sliced by a truthy limit) and fire a background
`fetchItemsFromDatabase` without awaiting it; on a miss await the fetch. -/
def getSavedItems (env : Env) (db : List ItemRow) (st : LocalState)
    (now : Int) (limit : Option Nat) : ListReadOutcome :=
  if env.configured then
    match getCachedItems st now with
    | (some cached, st1) =>
        { items := jsSliceLimit cached limit
        , queriesIssued := []
        , backgroundQueries := [fetchItemsQuery limit]
        , state := st1 }
    | (none, st1) => fetchItemsFromDatabase env db st1 now limit
  else
    { items := [], queriesIssued := [], backgroundQueries := [], state := st }

/-- The characters `String.prototype.trim` strips (ASCII subset; the claims
only need blank strings built from these). -/
def isJsWhitespace (c : Char) : Bool :=
  c == ' ' || c == '\t' || c == '\n' || c == '\r' || c == '\x0b' || c == '\x0c'

/-- Source: `query.trim()`. -/
def jsTrim (s : String) : String :=
  ⟨((s.toList.dropWhile isJsWhitespace).reverse.dropWhile isJsWhitespace).reverse⟩

/-- Source: `hay.includes(needle)` on JavaScript strings. -/
def jsIncludes (hay needle : String) : Bool :=
  decide (needle.toList <:+: hay.toList)

/-- Source: `s.toLowerCase()` (ASCII-faithful). -/
def jsToLower (s : String) : String := s.map Char.toLower

/-- The predicate both branches of `searchSavedItems` filter with:
case-insensitive substring match of the query against `name`, `type`,
`rarity`, `theme` and `description`, each defaulting to the empty string
when absent. -/
def matchesQuery (lowerQuery : String) (d : ItemData) : Bool :=
  jsIncludes (jsToLower (d.name.getD "")) lowerQuery ||
  jsIncludes (jsToLower (d.type.getD "")) lowerQuery ||
  jsIncludes (jsToLower (d.rarity.getD "")) lowerQuery ||
  jsIncludes (jsToLower (d.theme.getD "")) lowerQuery ||
  jsIncludes (jsToLower (d.description.getD "")) lowerQuery

/-- The no-cache branch of `searchSavedItems`: run the bounded projected
query, filter client-side, then warm the cache with a full
`fetchItemsFromDatabase` (whose result is cached again, as the source does
redundantly). -/
def searchFromDatabase (env : Env) (db : List ItemRow) (st : LocalState)
    (now : Int) (query : String) : ListReadOutcome :=
  let rows := runListQuery db searchDbQuery
  let lowerQuery := jsToLower query
  let filtered := rows.filter fun r => matchesQuery lowerQuery r.item_data
  let items := filtered.map rowToSavedItem
  let f := fetchItemsFromDatabase env db st now none
  { items := items
  , queriesIssued := [searchDbQuery] ++ f.queriesIssued
  , backgroundQueries := []
  , state := setCachedItems env f.items f.state now }

/-- The function `searchSavedItems`: empty when unconfigured; a blank query delegates to
`getSavedItems()`; a warm non-empty cache is filtered client-side with a
fire-and-forget refresh; otherwise the database branch runs. -/
def searchSavedItems (env : Env) (db : List ItemRow) (st : LocalState)
    (now : Int) (query : String) : ListReadOutcome :=
  if env.configured then
    if jsTrim query = "" then getSavedItems env db st now none
    else
      match getCachedItems st now with
      | (some cached, st1) =>
          if 0 < cached.length then
            let lowerQuery := jsToLower query
            { items := cached.filter fun it => matchesQuery lowerQuery it.itemData
            , queriesIssued := []
            , backgroundQueries := [fetchItemsQuery none]
            , state := st1 }
          else searchFromDatabase env db st1 now query
      | (none, st1) => searchFromDatabase env db st1 now query
  else
    { items := [], queriesIssued := [], backgroundQueries := [], state := st }

/-! ## `saveItem` (`services/storageService.ts`) -/

/-- Outcome of the `generateThumbnail` call `saveItem` awaits. -/
inductive DeriverOutcome where
  | ok (thumb : String)
  | failed
deriving DecidableEq, Repr

/-- Outcome of the `insert(...).select().single()` call. -/
inductive InsertOutcome where
  | inserted (id : String) (created_at : Int)
  | storeError
deriving DecidableEq, Repr

/-- The record `saveItem` inserts into `magic_items`. -/
structure InsertRow where
  item_data : ItemData
  image_prompt : String
  item_card : String
  image_url : Option String
  thumbnail_url : Option String
deriving DecidableEq, Repr

/-- How `saveItem` returns: `ok none` is the silent `null` of the
unconfigured path, `ok (some saved)` a successful persist, `threw` the
re-thrown storage failure. -/
inductive SaveResult where
  | threw
  | ok (saved : Option SavedMagicItem)
deriving DecidableEq, Repr

/-- What one `saveItem` call produces: the row sent to the store (when a
request is issued at all) and the returned or thrown result. -/
structure SaveOutcome where
  insertRequest : Option InsertRow
  result : SaveResult
deriving DecidableEq, Repr

/-- The function `saveItem`: silently `null` when unconfigured; derive a thumbnail only
when the input carries an image, swallowing deriver failure (the record is
then inserted with a `null` thumbnail); insert the full record; re-throw on
store error; invalidate the cache and return the saved item on success. -/
def saveItem (configured : Bool) (item : MagicItemResult)
    (deriver : DeriverOutcome) (ins : InsertOutcome) (st : LocalState) :
    SaveOutcome × LocalState :=
  if configured then
    let thumbnailUrl : Option String :=
      match item.imageUrl with
      | none => none
      | some _ =>
          match deriver with
          | .ok t => some t
          | .failed => none
    let row : InsertRow :=
      { item_data := item.itemData
      , image_prompt := item.imagePrompt
      , item_card := item.itemCard
      , image_url := item.imageUrl
      , thumbnail_url := thumbnailUrl }
    match ins with
    | .storeError => ({ insertRequest := some row, result := .threw }, st)
    | .inserted id created =>
        ({ insertRequest := some row
         , result := .ok (some
            { itemData := item.itemData
            , imagePrompt := item.imagePrompt
            , itemCard := item.itemCard
            , imageUrl := item.imageUrl
            , id := id
            , created_at := created
            , savedAt := created }) }
        , invalidateCache st)
  else
    ({ insertRequest := none, result := .ok none }, st)

/-! ## Background-refresh / invalidate interleaving
(`refreshItemsInBackground`, `invalidateCache`) -/

/-- State shared by an in-flight background refresh and the foreground: the
local cache keys, the remote table, and the listing a refresh has fetched
but not yet written back. -/
structure RaceState where
  st : LocalState
  db : List ItemRow
  pending : Option (List SavedMagicItem)
deriving DecidableEq, Repr

/-- Atomic steps of the race: a background refresh reads the store
(`fetchItemsFromDatabase` up to its `await`), later writes its snapshot back
(`setCachedItems`); the foreground can insert a row and invalidate. -/
inductive RaceEvent where
  | refreshRead (limit : Option Nat)
  | refreshWrite (now : Int)
  | invalidate
  | dbInsert (row : ItemRow)

/-- One interleaved step. -/
def raceStep (env : Env) (s : RaceState) : RaceEvent → RaceState
  | .refreshRead limit =>
      let snapshot := (runListQuery s.db (fetchItemsQuery limit)).map rowToSavedItem
      { s with pending := some snapshot }
  | .refreshWrite now =>
      match s.pending with
      | some items =>
          { s with st := setCachedItems env items s.st now, pending := none }
      | none => s
  | .invalidate => { s with st := invalidateCache s.st }
  | .dbInsert row => { s with db := row :: s.db }

/-- A run of foreground inserts. -/
def insertMany (env : Env) (mid : List ItemRow) (s : RaceState) : RaceState :=
  mid.foldl (fun t r => raceStep env t (.dbInsert r)) s

/-! ## Generation orchestrator (`App.tsx`, `handleGenerate`) -/

/-- The outbound requests `handleGenerate` can issue, in the order the
source awaits them, plus the rate-limit consultation the specification
describes. -/
inductive GenRequest where
  | rateLimitCheck
  | textGeneration
  | imageGeneration
  | persistItem
  | recentItemsFetch
deriving DecidableEq, Repr

/-- How the `saveItem` call inside `handleGenerate` resolves: a saved
record, the silent `null` of an unconfigured store, or a thrown error
(caught and logged). -/
inductive SaveStep where
  | saved
  | returnedNull
  | threw
deriving DecidableEq, Repr

/-- Per-attempt environment for `handleGenerate`: `process.env.API_KEY`
presence and how each awaited step resolves.  `imageSucceeds` is carried to
record that the image step's failure is swallowed: the request trace does
not depend on it. -/
structure GenEnv where
  apiKeySet : Bool
  textSucceeds : Bool
  imageSucceeds : Bool
  saveStep : SaveStep
deriving DecidableEq, Repr

/-- The request trace of one `handleGenerate` invocation, read off the
source: missing API key → no requests; text failure is terminal; otherwise
text, then image (its failure swallowed), then persist, then — only when
`saveItem` returned a record — the recent-items reload.  No branch consults
`checkClientRateLimit`. -/
def handleGenerateRequests (env : GenEnv) : List GenRequest :=
  if env.apiKeySet then
    if env.textSucceeds then
      [.textGeneration, .imageGeneration, .persistItem] ++
        (match env.saveStep with
         | .saved => [.recentItemsFetch]
         | .returnedNull => []
         | .threw => [])
    else [.textGeneration]
  else []

/-! ## Concrete data for counterexamples and witnesses -/

/-- A minimal structured-data value. -/
def demoItemData : ItemData := ⟨some "A", none, none, none, none⟩

/-- A configured environment whose cache writes pass the size guard. -/
def demoEnv : Env := ⟨true, true⟩

/-- One stored row. -/
def demoRowA : ItemRow :=
  { id := "a", created_at := 1, item_data := demoItemData
  , image_prompt := "p", item_card := "c"
  , image_url := some "full", thumbnail_url := some "thumb" }

/-- A newer stored row. -/
def demoRowB : ItemRow :=
  { id := "b", created_at := 2, item_data := ⟨some "B", none, none, none, none⟩
  , image_prompt := "q", item_card := "d"
  , image_url := some "full2", thumbnail_url := some "thumb2" }

/-- A local state whose cache freshly holds the listing of `demoRowA`. -/
def demoFreshState : LocalState :=
  ⟨some [toCachedItem (rowToSavedItem demoRowA)], some 0⟩

/-- Race start: cache and store both hold `demoRowA`, no refresh pending. -/
def raceDemoStart : RaceState :=
  { st := demoFreshState, db := [demoRowA], pending := none }

/-- The losing interleaving: a background refresh reads the store, then the
foreground inserts a row and invalidates, then the refresh writes its stale
snapshot back. -/
def raceDemoEnd : RaceState :=
  raceStep demoEnv
    (raceStep demoEnv
      (raceStep demoEnv
        (raceStep demoEnv raceDemoStart (.refreshRead none))
        (.dbInsert demoRowB))
      .invalidate)
    (.refreshWrite 0)

/-- A generation result carrying an image. -/
def demoItem : MagicItemResult :=
  { itemData := demoItemData, imagePrompt := "p", itemCard := "c"
  , imageUrl := some "img" }

end ArcaneForge

namespace ArcaneForge

/-! ## Rate limiter lemmas -/

theorem recentTimestamps_eq_self (parsed : List Int) (now : Int)
    (h : ∀ x ∈ parsed, now - x < windowMs) :
    recentTimestamps parsed now = parsed := by
  unfold recentTimestamps
  rw [List.filter_eq_self]
  intro x hx
  exact decide_eq_true (h x hx)

theorem checkOn_allows (stored : List Int) (now : Int)
    (hall : ∀ x ∈ stored, now - x < windowMs)
    (hlen : stored.length < MAX_GENERATIONS_PER_MINUTE) :
    checkClientRateLimitOn stored now =
      { result := { allowed := true, retryAfterSeconds := none }
      , written := some (stored ++ [now]) } := by
  unfold checkClientRateLimitOn
  rw [recentTimestamps_eq_self stored now hall]
  rw [if_neg (by omega)]

theorem checkOn_denies (stored : List Int) (now : Int)
    (hlen : MAX_GENERATIONS_PER_MINUTE ≤ (recentTimestamps stored now).length) :
    (checkClientRateLimitOn stored now).result.allowed = false ∧
    (checkClientRateLimitOn stored now).written = none := by
  unfold checkClientRateLimitOn
  rw [if_pos hlen]
  exact ⟨rfl, rfl⟩

/-- C3: for every persisted list and current time, fewer than 5 in-window
timestamps means the call appends `now` to the filtered list, persists it and
allows; 5 or more means it denies.  In particular six calls at nondecreasing
times spanning less than the 60-second window, starting from an empty log,
are allowed five times and denied the sixth. -/
theorem rateLimit_window_threshold
    (parsed : List Int) (now t0 t1 t2 t3 t4 t5 : Int)
    (h01 : t0 ≤ t1) (h12 : t1 ≤ t2) (h23 : t2 ≤ t3) (h34 : t3 ≤ t4)
    (h45 : t4 ≤ t5) (hwin : t5 - t0 < windowMs) :
    ((recentTimestamps parsed now).length < MAX_GENERATIONS_PER_MINUTE →
        checkClientRateLimitOn parsed now =
          { result := { allowed := true, retryAfterSeconds := none }
          , written := some (recentTimestamps parsed now ++ [now]) }) ∧
    (MAX_GENERATIONS_PER_MINUTE ≤ (recentTimestamps parsed now).length →
        (checkClientRateLimitOn parsed now).result.allowed = false) ∧
    runRateLimit [] [t0, t1, t2, t3, t4, t5] =
      [true, true, true, true, true, false] := by
  have hw : windowMs = 60000 := by norm_num [windowMs]
  rw [hw] at hwin
  refine ⟨?_, ?_, ?_⟩
  · intro h
    unfold checkClientRateLimitOn
    rw [if_neg (by omega)]
  · intro h
    exact (checkOn_denies parsed now h).1
  · have mem0 : ∀ x ∈ ([] : List Int), t0 - x < windowMs := by
      intro x hx; simp at hx
    have mem1 : ∀ x ∈ [t0], t1 - x < windowMs := by
      intro x hx
      simp only [List.mem_singleton] at hx
      rw [hw]; omega
    have mem2 : ∀ x ∈ [t0, t1], t2 - x < windowMs := by
      intro x hx
      simp only [List.mem_cons, List.mem_singleton, List.not_mem_nil, or_false] at hx
      rw [hw]; rcases hx with rfl | rfl <;> omega
    have mem3 : ∀ x ∈ [t0, t1, t2], t3 - x < windowMs := by
      intro x hx
      simp only [List.mem_cons, List.mem_singleton, List.not_mem_nil, or_false] at hx
      rw [hw]; rcases hx with rfl | rfl | rfl <;> omega
    have mem4 : ∀ x ∈ [t0, t1, t2, t3], t4 - x < windowMs := by
      intro x hx
      simp only [List.mem_cons, List.mem_singleton, List.not_mem_nil, or_false] at hx
      rw [hw]; rcases hx with rfl | rfl | rfl | rfl <;> omega
    have mem5 : ∀ x ∈ [t0, t1, t2, t3, t4], t5 - x < windowMs := by
      intro x hx
      simp only [List.mem_cons, List.mem_singleton, List.not_mem_nil, or_false] at hx
      rw [hw]; rcases hx with rfl | rfl | rfl | rfl | rfl <;> omega
    have hmax : MAX_GENERATIONS_PER_MINUTE = 5 := rfl
    have st0 : rateLimitStep [] t0 = (true, [t0]) := by
      simp [rateLimitStep, checkOn_allows [] t0 mem0 (by rw [hmax]; simp)]
    have st1 : rateLimitStep [t0] t1 = (true, [t0, t1]) := by
      simp [rateLimitStep, checkOn_allows [t0] t1 mem1 (by rw [hmax]; simp)]
    have st2 : rateLimitStep [t0, t1] t2 = (true, [t0, t1, t2]) := by
      simp [rateLimitStep, checkOn_allows [t0, t1] t2 mem2 (by rw [hmax]; simp)]
    have st3 : rateLimitStep [t0, t1, t2] t3 = (true, [t0, t1, t2, t3]) := by
      simp [rateLimitStep, checkOn_allows [t0, t1, t2] t3 mem3 (by rw [hmax]; simp)]
    have st4 : rateLimitStep [t0, t1, t2, t3] t4 = (true, [t0, t1, t2, t3, t4]) := by
      simp [rateLimitStep, checkOn_allows [t0, t1, t2, t3] t4 mem4 (by rw [hmax]; simp)]
    have st5 : rateLimitStep [t0, t1, t2, t3, t4] t5 = (false, [t0, t1, t2, t3, t4]) := by
      have hd := checkOn_denies [t0, t1, t2, t3, t4] t5
        (by rw [recentTimestamps_eq_self _ _ mem5, hmax]; simp)
      simp [rateLimitStep, hd.1, hd.2]
    simp only [runRateLimit, st0, st1, st2, st3, st4, st5]

/-- Witness for C3 at six calls all at time 0 from an empty log. -/
theorem rateLimit_window_threshold_witness :
    ((0 : Int) ≤ 0) ∧ ((0 : Int) - 0 < windowMs) ∧
    runRateLimit [] [0, 0, 0, 0, 0, 0] =
      [true, true, true, true, true, false] :=
  ⟨le_refl 0, by decide,
    (rateLimit_window_threshold [] 0 0 0 0 0 0 0 (le_refl 0) (le_refl 0)
      (le_refl 0) (le_refl 0) (le_refl 0) (by decide)).2.2⟩

/-- C5: the limiter fails open.  A throwing read, an unparsable raw value and
an absent key all yield `allowed: true`, for every current time. -/
theorem rateLimit_fail_open (now : Int) :
    (checkClientRateLimit .throws now).result.allowed = true ∧
    (checkClientRateLimit .malformed now).result.allowed = true ∧
    (checkClientRateLimit .absent now).result.allowed = true := by
  refine ⟨rfl, rfl, ?_⟩
  show (checkClientRateLimitOn [] now).result.allowed = true
  rw [checkOn_allows [] now (by intro x hx; simp at hx) (by simp [MAX_GENERATIONS_PER_MINUTE])]

/-- Witness for C5 at time 0. -/
theorem rateLimit_fail_open_witness :
    (checkClientRateLimit .throws 0).result.allowed = true ∧
    (checkClientRateLimit .malformed 0).result.allowed = true ∧
    (checkClientRateLimit .absent 0).result.allowed = true :=
  rateLimit_fail_open 0

theorem checkOn_no_write_of_denied (parsed : List Int) (now : Int)
    (h : (checkClientRateLimitOn parsed now).result.allowed = false) :
    (checkClientRateLimitOn parsed now).written = none := by
  simp only [checkClientRateLimitOn] at h ⊢
  split at h
  · split
    · rfl
    · omega
  · simp at h

/-- C10: a denied check never writes.  For every read of the persisted state
and every current time, if the call answers `allowed: false` then nothing is
passed to `localStorage.setItem`. -/
theorem rateLimit_denied_no_write (read : StorageRead) (now : Int)
    (hdenied : (checkClientRateLimit read now).result.allowed = false) :
    (checkClientRateLimit read now).written = none := by
  cases read with
  | throws => simp [checkClientRateLimit] at hdenied
  | malformed => simp [checkClientRateLimit] at hdenied
  | absent => exact checkOn_no_write_of_denied [] now hdenied
  | value parsed => exact checkOn_no_write_of_denied parsed now hdenied

/-- Witness for C10: five timestamps at time 0 deny a sixth call at time 0,
and the denied call writes nothing. -/
theorem rateLimit_denied_no_write_witness :
    (checkClientRateLimit (.value [0, 0, 0, 0, 0]) 0).result.allowed = false ∧
    (checkClientRateLimit (.value [0, 0, 0, 0, 0]) 0).written = none :=
  ⟨by decide, rateLimit_denied_no_write (.value [0, 0, 0, 0, 0]) 0 (by decide)⟩

/-- C4 counterexample: the code clamps `retryAfterSeconds` from below at 1
but not from above at 60.  A persisted list of five timestamps 50 seconds in
the future (all inside the `now - ts < windowMs` filter) yields
`retryAfterSeconds = 110`, while the claimed formula, clamped to `[1, 60]`,
yields 60. -/
theorem rateLimit_retryAfter_counterexample :
    (checkClientRateLimit (.value (List.replicate 5 1050000)) 1000000).result =
      { allowed := false, retryAfterSeconds := some 110 } ∧
    min 60 (max 1 (ceilDiv1000
      (windowMs - (1000000 - oldestInWindow (List.replicate 5 1050000) 1000000)))) = 60 ∧
    (110 : Int) ≠ 60 := by
  refine ⟨by decide, by decide, by decide⟩

/-- C4 amended: when the check denies, `retryAfterSeconds` is
`max(1, ceil((windowMs - (now - recent[0])) / 1000))` with `recent[0]` the
first in-window entry in list order.  For a chronologically ordered persisted
list with no future entries — the only lists the limiter itself persists —
`recent[0]` is the oldest in-window timestamp, the value equals the claimed
formula clamped to `[1, 60]`, and in particular lies in `[1, 60]`. -/
theorem rateLimit_retryAfter_amended (parsed : List Int) (now : Int)
    (_hsort : parsed.Pairwise (· ≤ ·)) (hpast : ∀ x ∈ parsed, x ≤ now)
    (hdenied : (checkClientRateLimitOn parsed now).result.allowed = false) :
    (checkClientRateLimitOn parsed now).result.retryAfterSeconds =
      some (min 60 (max 1 (ceilDiv1000 (windowMs - (now - oldestInWindow parsed now))))) ∧
    (∀ r, (checkClientRateLimitOn parsed now).result.retryAfterSeconds = some r →
      1 ≤ r ∧ r ≤ 60) := by
  have hw : windowMs = 60000 := by norm_num [windowMs]
  by_cases hlen : MAX_GENERATIONS_PER_MINUTE ≤ (recentTimestamps parsed now).length
  · have hne : recentTimestamps parsed now ≠ [] := by
      intro hnil
      rw [hnil] at hlen
      simp [MAX_GENERATIONS_PER_MINUTE] at hlen
    obtain ⟨o, rest, ho⟩ := List.exists_cons_of_ne_nil hne
    have hmem : o ∈ parsed.filter (fun ts => decide (now - ts < windowMs)) := by
      rw [show parsed.filter (fun ts => decide (now - ts < windowMs)) =
            recentTimestamps parsed now from rfl, ho]
      exact List.mem_cons_self o rest
    have hmf := List.mem_filter.mp hmem
    have hinw : now - o < 60000 := by
      have h1 := of_decide_eq_true hmf.2
      rw [hw] at h1
      exact h1
    have hole : o ≤ now := hpast o hmf.1
    have hoio : oldestInWindow parsed now = o := by
      unfold oldestInWindow
      rw [ho]
      rfl
    have houtcome : checkClientRateLimitOn parsed now =
        { result :=
            { allowed := false,
              retryAfterSeconds := some (max 1 (ceilDiv1000 (windowMs - (now - o)))) },
          written := none } := by
      simp only [checkClientRateLimitOn]
      rw [if_pos hlen, ho]
      rfl
    have hbounds : 1 ≤ ceilDiv1000 (windowMs - (now - o)) ∧
        ceilDiv1000 (windowMs - (now - o)) ≤ 60 := by
      unfold ceilDiv1000
      rw [hw]
      omega
    refine ⟨?_, ?_⟩
    · rw [houtcome, hoio]
      have h60 : min 60 (max 1 (ceilDiv1000 (windowMs - (now - o)))) =
          max 1 (ceilDiv1000 (windowMs - (now - o))) := by omega
      rw [h60]
    · intro r hr
      rw [houtcome] at hr
      have h1 : max 1 (ceilDiv1000 (windowMs - (now - o))) = r := Option.some.inj hr
      omega
  · exfalso
    have hallow : (checkClientRateLimitOn parsed now).result.allowed = true := by
      simp only [checkClientRateLimitOn]
      rw [if_neg hlen]
    rw [hdenied] at hallow
    exact Bool.false_ne_true hallow

/-- Witness for C4 amended: five zeros at time 0 deny with
`retryAfterSeconds = 60`. -/
theorem rateLimit_retryAfter_amended_witness :
    (checkClientRateLimitOn [0, 0, 0, 0, 0] 0).result.allowed = false ∧
    (checkClientRateLimitOn [0, 0, 0, 0, 0] 0).result.retryAfterSeconds =
      some (min 60 (max 1 (ceilDiv1000
        (windowMs - (0 - oldestInWindow [0, 0, 0, 0, 0] 0))))) :=
  ⟨by decide,
    (rateLimit_retryAfter_amended [0, 0, 0, 0, 0] 0 (by decide) (by decide) (by decide)).1⟩

/-! ## Store query shaping (C2) -/

theorem getSavedItems_query_fields (env : Env) (db : List ItemRow)
    (st : LocalState) (now : Int) (limit : Option Nat) (q : StoreQuery)
    (hq : q ∈ (getSavedItems env db st now limit).queriesIssued ++
            (getSavedItems env db st now limit).backgroundQueries) :
    q.fields = ["id", "created_at", "item_data", "thumbnail_url"] := by
  unfold getSavedItems at hq
  split at hq
  · split at hq
    · simp at hq
      subst hq
      rfl
    · unfold fetchItemsFromDatabase at hq
      simp at hq
      subst hq
      rfl
  · simp at hq

theorem searchSavedItems_query_fields (env : Env) (db : List ItemRow)
    (st : LocalState) (now : Int) (s : String) (q : StoreQuery)
    (hq : q ∈ (searchSavedItems env db st now s).queriesIssued ++
            (searchSavedItems env db st now s).backgroundQueries) :
    q.fields = ["id", "created_at", "item_data", "thumbnail_url"] := by
  unfold searchSavedItems at hq
  split at hq
  · split at hq
    · exact getSavedItems_query_fields env db st now none q hq
    · split at hq
      · split at hq
        · simp at hq
          subst hq
          rfl
        · unfold searchFromDatabase fetchItemsFromDatabase at hq
          simp at hq
          rcases hq with rfl | rfl <;> rfl
      · unfold searchFromDatabase fetchItemsFromDatabase at hq
        simp at hq
        rcases hq with rfl | rfl <;> rfl
  · simp at hq

/-- C2: every store query a listing (`getSavedItems`, any limit — the source
exposes no offset parameter, so all limit/offset combinations the code can
issue are covered) or a search (`searchSavedItems`) sends, foreground or
background, projects exactly `id, created_at, item_data, thumbnail_url` and
never the full-image column `image_url`. -/
theorem listing_never_selects_image_url (env : Env) (db : List ItemRow)
    (st : LocalState) (now : Int) (limit : Option Nat) (s : String)
    (q : StoreQuery)
    (hq : q ∈ (getSavedItems env db st now limit).queriesIssued ++
            (getSavedItems env db st now limit).backgroundQueries ∨
          q ∈ (searchSavedItems env db st now s).queriesIssued ++
            (searchSavedItems env db st now s).backgroundQueries) :
    q.fields = ["id", "created_at", "item_data", "thumbnail_url"] ∧
    "image_url" ∉ q.fields := by
  have hf : q.fields = ["id", "created_at", "item_data", "thumbnail_url"] := by
    rcases hq with h | h
    · exact getSavedItems_query_fields env db st now limit q h
    · exact searchSavedItems_query_fields env db st now s q h
  refine ⟨hf, ?_⟩
  rw [hf]
  decide

/-- Witness for C2: the query of a cold-cache listing. -/
theorem listing_never_selects_image_url_witness :
    fetchItemsQuery none ∈
      (getSavedItems demoEnv [] ⟨none, none⟩ 0 none).queriesIssued ++
      (getSavedItems demoEnv [] ⟨none, none⟩ 0 none).backgroundQueries ∧
    (fetchItemsQuery none).fields = ["id", "created_at", "item_data", "thumbnail_url"] ∧
    "image_url" ∉ (fetchItemsQuery none).fields :=
  ⟨by decide,
    listing_never_selects_image_url demoEnv [] ⟨none, none⟩ 0 none "x"
      (fetchItemsQuery none) (Or.inl (by decide))⟩

/-! ## List-cache freshness (C6) -/

/-- C6 counterexample: one fresh cached item, requested limit 0.  The read
returns the full cached list — `limit ? cached.slice(0, limit) : cached`
treats the falsy 0 as no limit, so the promised truncation to the requested
limit does not happen — and it also fires a background store query. -/
theorem cache_freshness_counterexample :
    (getSavedItems demoEnv [] demoFreshState 0 (some 0)).items =
      [restoreCachedItem (toCachedItem (rowToSavedItem demoRowA))] ∧
    (getSavedItems demoEnv [] demoFreshState 0 (some 0)).items ≠
      [restoreCachedItem (toCachedItem (rowToSavedItem demoRowA))].take 0 ∧
    (getSavedItems demoEnv [] demoFreshState 0 (some 0)).backgroundQueries ≠ [] := by
  refine ⟨by decide, by decide, by decide⟩

/-- C6 amended: with a configured store and a present cache entry, a read
whose entry is older than 5 minutes treats the cache as absent and awaits a
full store fetch; a read whose entry is at most 5 minutes old returns the
restored cached items without awaiting any store request, firing only the
non-blocking background refresh, and truncates to the requested limit
whenever a nonzero limit is given (a limit of 0 is falsy and returns the
full cached list). -/
theorem cache_freshness_amended (env : Env) (db : List ItemRow)
    (items : List CachedItem) (ts now : Int) (limit : Option Nat)
    (st : LocalState)
    (hconf : env.configured = true)
    (hst : st = { cacheItems := some items, cacheTimestamp := some ts }) :
    (CACHE_DURATION < now - ts →
        (getSavedItems env db st now limit).items =
          (runListQuery db (fetchItemsQuery limit)).map rowToSavedItem ∧
        (getSavedItems env db st now limit).queriesIssued = [fetchItemsQuery limit]) ∧
    (now - ts ≤ CACHE_DURATION →
        (getSavedItems env db st now limit).items =
          jsSliceLimit (items.map restoreCachedItem) limit ∧
        (getSavedItems env db st now limit).queriesIssued = [] ∧
        (getSavedItems env db st now limit).backgroundQueries = [fetchItemsQuery limit] ∧
        (∀ n, limit = some n → n ≠ 0 →
          (getSavedItems env db st now limit).items =
            (items.map restoreCachedItem).take n)) := by
  subst hst
  constructor
  · intro h
    have hgc : getCachedItems ⟨some items, some ts⟩ now =
        (none, { cacheItems := none, cacheTimestamp := none }) := by
      simp only [getCachedItems]
      rw [if_pos h]
    constructor
    · unfold getSavedItems
      rw [if_pos hconf, hgc]
      rfl
    · unfold getSavedItems
      rw [if_pos hconf, hgc]
      rfl
  · intro h
    have hgc : getCachedItems ⟨some items, some ts⟩ now =
        (some (items.map restoreCachedItem), ⟨some items, some ts⟩) := by
      simp only [getCachedItems]
      rw [if_neg (by omega)]
    refine ⟨?_, ?_, ?_, ?_⟩
    · unfold getSavedItems
      rw [if_pos hconf, hgc]
    · unfold getSavedItems
      rw [if_pos hconf, hgc]
    · unfold getSavedItems
      rw [if_pos hconf, hgc]
    · intro n hn hnz
      subst hn
      unfold getSavedItems
      rw [if_pos hconf, hgc]
      show jsSliceLimit (items.map restoreCachedItem) (some n) = _
      simp only [jsSliceLimit]
      rw [if_neg hnz]

/-- Witness for C6 amended: the expired branch at ten minutes of age. -/
theorem cache_freshness_amended_witness :
    demoEnv.configured = true ∧ CACHE_DURATION < (600000 : Int) - 0 ∧
    (getSavedItems demoEnv [] demoFreshState 600000 none).items =
      (runListQuery [] (fetchItemsQuery none)).map rowToSavedItem :=
  ⟨rfl, by decide,
    ((cache_freshness_amended demoEnv [] [toCachedItem (rowToSavedItem demoRowA)]
      0 600000 none demoFreshState rfl rfl).1 (by decide)).1⟩

/-! ## Invalidate vs in-flight refresh (C7) -/

theorem insertMany_st (env : Env) (mid : List ItemRow) (s : RaceState) :
    (insertMany env mid s).st = s.st := by
  induction mid generalizing s with
  | nil => rfl
  | cons r rest ih =>
      show (insertMany env rest (raceStep env s (.dbInsert r))).st = s.st
      rw [ih]
      rfl

/-- C7 counterexample: starting with cache and store agreeing on one row, the
interleaving refresh-read → insert → invalidate → refresh-write leaves the
stale snapshot in the cache; the immediately following read is served from
that entry, returns exactly the pre-invalidation cache contents, awaits no
store query, and misses the freshly inserted row. -/
theorem invalidate_race_counterexample :
    (getSavedItems demoEnv raceDemoEnd.db raceDemoEnd.st 0 none).items =
      [rowToSavedItem demoRowA] ∧
    (getCachedItems raceDemoStart.st 0).fst = some [rowToSavedItem demoRowA] ∧
    (getSavedItems demoEnv raceDemoEnd.db raceDemoEnd.st 0 none).queriesIssued = [] ∧
    (getSavedItems demoEnv raceDemoEnd.db raceDemoEnd.st 0 none).items ≠
      (runListQuery raceDemoEnd.db (fetchItemsQuery none)).map rowToSavedItem := by
  refine ⟨by decide, by decide, by decide, by decide⟩

/-- C7 amended: the invalidate wins whenever no background-refresh write-back
lands between the invalidation and the read: after `invalidateCache` and any
number of store inserts, the next read finds no cache entry and awaits a
full store fetch, returning the current store listing.  (A refresh that
started before the invalidation and writes back after it can resurrect the
stale listing, as the counterexample shows.) -/
theorem invalidate_forces_store_read (env : Env) (s : RaceState)
    (mid : List ItemRow) (now : Int) (limit : Option Nat)
    (hconf : env.configured = true) :
    (getSavedItems env (insertMany env mid (raceStep env s .invalidate)).db
        (insertMany env mid (raceStep env s .invalidate)).st now limit).queriesIssued =
      [fetchItemsQuery limit] ∧
    (getSavedItems env (insertMany env mid (raceStep env s .invalidate)).db
        (insertMany env mid (raceStep env s .invalidate)).st now limit).items =
      (runListQuery (insertMany env mid (raceStep env s .invalidate)).db
        (fetchItemsQuery limit)).map rowToSavedItem := by
  have hst : (insertMany env mid (raceStep env s .invalidate)).st =
      { cacheItems := none, cacheTimestamp := none } := by
    rw [insertMany_st]
    rfl
  rw [hst]
  constructor
  · unfold getSavedItems
    rw [if_pos hconf]
    rfl
  · unfold getSavedItems
    rw [if_pos hconf]
    rfl

/-- Witness for C7 amended: invalidate, insert one row, read. -/
theorem invalidate_forces_store_read_witness :
    demoEnv.configured = true ∧
    (getSavedItems demoEnv
        (insertMany demoEnv [demoRowB] (raceStep demoEnv raceDemoStart .invalidate)).db
        (insertMany demoEnv [demoRowB] (raceStep demoEnv raceDemoStart .invalidate)).st
        0 none).items =
      (runListQuery
        (insertMany demoEnv [demoRowB] (raceStep demoEnv raceDemoStart .invalidate)).db
        (fetchItemsQuery none)).map rowToSavedItem :=
  ⟨rfl, (invalidate_forces_store_read demoEnv raceDemoStart [demoRowB] 0 none rfl).2⟩

/-! ## Blank search delegates to listing (C8) -/

theorem dropWhile_of_all_blank (l : List Char)
    (h : l.all isJsWhitespace = true) :
    l.dropWhile isJsWhitespace = [] := by
  rw [List.dropWhile_eq_nil_iff]
  intro x hx
  exact List.all_eq_true.mp h x hx

theorem jsTrim_of_blank (s : String) (h : s.toList.all isJsWhitespace = true) :
    jsTrim s = "" := by
  unfold jsTrim
  rw [dropWhile_of_all_blank _ h]
  rfl

/-- C8: for every query that is empty or consists only of whitespace,
`searchSavedItems` returns exactly what the list operation
`getSavedItems()` returns — same items, same store requests, same local
state — under every environment, store and cache state. -/
theorem search_blank_equals_list (env : Env) (db : List ItemRow)
    (st : LocalState) (now : Int) (q : String)
    (hq : q.toList.all isJsWhitespace = true) :
    searchSavedItems env db st now q = getSavedItems env db st now none := by
  unfold searchSavedItems
  rw [jsTrim_of_blank q hq]
  by_cases hc : env.configured = true
  · rw [if_pos hc, if_pos rfl]
  · rw [if_neg hc]
    unfold getSavedItems
    rw [if_neg hc]

/-- Witness for C8: the one-space query against a concrete state. -/
theorem search_blank_equals_list_witness :
    (" ".toList.all isJsWhitespace = true) ∧
    searchSavedItems demoEnv [demoRowA] demoFreshState 0 " " =
      getSavedItems demoEnv [demoRowA] demoFreshState 0 none :=
  ⟨by decide, search_blank_equals_list demoEnv [demoRowA] demoFreshState 0 " " (by decide)⟩

/-! ## Thumbnail handling in `saveItem` (C9) -/

/-- C9: for a create input that carries an image, a successful deriver puts
the derived thumbnail on the inserted record; a failed deriver still inserts
the record, with a `null` thumbnail, and the create throws exactly when the
store insert fails — never because of the deriver. -/
theorem saveItem_thumbnail (item : MagicItemResult) (deriver : DeriverOutcome)
    (ins : InsertOutcome) (st : LocalState) (u : String)
    (himg : item.imageUrl = some u) :
    (∀ t, deriver = .ok t →
        ∃ row, (saveItem true item deriver ins st).1.insertRequest = some row ∧
          row.thumbnail_url = some t) ∧
    (deriver = .failed →
        (∃ row, (saveItem true item deriver ins st).1.insertRequest = some row ∧
          row.thumbnail_url = none) ∧
        ((saveItem true item deriver ins st).1.result = .threw ↔ ins = .storeError)) := by
  constructor
  · intro t ht
    subst ht
    refine ⟨{ item_data := item.itemData, image_prompt := item.imagePrompt
            , item_card := item.itemCard, image_url := item.imageUrl
            , thumbnail_url := some t }, ?_, rfl⟩
    cases ins <;> simp [saveItem, himg]
  · intro hf
    subst hf
    refine ⟨⟨{ item_data := item.itemData, image_prompt := item.imagePrompt
             , item_card := item.itemCard, image_url := item.imageUrl
             , thumbnail_url := none }, ?_, rfl⟩, ?_⟩
    · cases ins <;> simp [saveItem, himg]
    · cases ins <;> simp [saveItem, himg]

/-- Witness for C9: a failed deriver on an image-carrying input still
inserts, with a `null` thumbnail. -/
theorem saveItem_thumbnail_witness :
    demoItem.imageUrl = some "img" ∧
    ∃ row, (saveItem true demoItem .failed (.inserted "i" 5) ⟨none, none⟩).1.insertRequest =
        some row ∧ row.thumbnail_url = none :=
  ⟨rfl,
    ((saveItem_thumbnail demoItem .failed (.inserted "i" 5) ⟨none, none⟩ "img" rfl).2 rfl).1⟩

/-! ## Orchestrator never consults the rate limiter (C1) -/

/-- C1 (recording the code bug): no branch of `handleGenerate` ever issues a
rate-limit consultation — for every environment the request trace contains
no `rateLimitCheck`, and as soon as the API key is present the very first
request is the text generation, so no generation attempt begins with a
rate-limit check. -/
theorem handleGenerate_skips_rate_limiter (env : GenEnv) :
    GenRequest.rateLimitCheck ∉ handleGenerateRequests env ∧
    (env.apiKeySet = true →
      (handleGenerateRequests env).head? = some .textGeneration) := by
  unfold handleGenerateRequests
  constructor
  · by_cases hk : env.apiKeySet = true
    · rw [if_pos hk]
      by_cases ht : env.textSucceeds = true
      · rw [if_pos ht]
        cases env.saveStep <;> decide
      · rw [if_neg ht]
        decide
    · rw [if_neg hk]
      decide
  · intro hk
    rw [if_pos hk]
    by_cases ht : env.textSucceeds = true
    · rw [if_pos ht]
      rfl
    · rw [if_neg ht]
      rfl

/-- Witness for C1: the fully successful attempt issues text, image, persist
and recent-items requests and no rate-limit check. -/
theorem handleGenerate_skips_rate_limiter_witness :
    GenRequest.rateLimitCheck ∉ handleGenerateRequests ⟨true, true, true, .saved⟩ ∧
    (handleGenerateRequests ⟨true, true, true, .saved⟩).head? = some .textGeneration :=
  ⟨(handleGenerate_skips_rate_limiter ⟨true, true, true, .saved⟩).1,
   (handleGenerate_skips_rate_limiter ⟨true, true, true, .saved⟩).2 rfl⟩

end ArcaneForge
